import Mathlib

/-!
Verification development for the aider-mcp-client repository
(`src/aider_mcp_client/client.py` and `src/aider_mcp_client/mcp_sdk_client.py`).

The development shallow-embeds the stdio subprocess protocol bridge
(`communicate_with_mcp_server`), the tool-level operation
(`fetch_documentation`) and the helpers they rely on, and proves or
refutes the frozen specification claims about them.

Conventions of the embedding:
* Python JSON values are the inductive type `Json` (integers only; the
  claims never exercise floats).
* `json.loads` / `json.dumps(..., indent=2)` from the Python standard
  library are modelled by the executable functions `Json.loads` and
  `Json.dumps2` over the ASCII fragment the program exchanges.
* Blocking system calls are made explicit: a read from a pipe whose
  producer never writes and never closes it has no return value, which
  the bridge model surfaces as the `BridgeOutcome.diverges` constructor.
* Wall-clock deadlines (`while time.time() - start_time < timeout`)
  become a fuel parameter counting the loop iterations the deadline
  still allows; exhausting the fuel is exactly the deadline-elapsed exit
  of the Python loop.
-/

/-- A JSON value as manipulated by the Python client (integer numbers
only; an object is the ordered key/value list produced by the parser). -/
inductive Json where
  | null : Json
  | bool (b : Bool) : Json
  | num (n : Int) : Json
  | str (s : String) : Json
  | arr (xs : List Json) : Json
  | obj (kvs : List (String × Json)) : Json

/-- The character `{` (kept as a named constant). -/
def lbrace : Char := Char.ofNat 123

/-- The character `}` (kept as a named constant). -/
def rbrace : Char := Char.ofNat 125

/-- Python `str.strip()` / JSON whitespace: space, tab, newline, carriage return. -/
def isPyWs (c : Char) : Bool :=
  c = ' ' || c = '\t' || c = '\n' || c = '\r'

/-- Drop leading whitespace (the JSON lexer's skip). -/
def skipWs : List Char → List Char
  | [] => []
  | c :: cs => if isPyWs c then skipWs cs else c :: cs

/-- Python `str.strip()` on a character list. -/
def pyStrip (l : List Char) : List Char :=
  ((l.dropWhile isPyWs).reverse.dropWhile isPyWs).reverse

/-- One escape character of a JSON string literal, decoded. -/
def unescape (e : Char) : Option Char :=
  if e = '"' then some '"'
  else if e = '\\' then some '\\'
  else if e = '/' then some '/'
  else if e = 'n' then some '\n'
  else if e = 't' then some '\t'
  else if e = 'r' then some '\r'
  else none

/-- Parse the body of a JSON string literal (after the opening quote):
characters up to the closing quote, with the basic escapes the client's
data uses. Returns the decoded characters and the rest of the input. -/
def parseStrBody : List Char → Option (List Char × List Char)
  | [] => none
  | '"' :: rest => some ([], rest)
  | '\\' :: [] => none
  | '\\' :: e :: rest' =>
    match unescape e with
    | none => none
    | some d =>
      match parseStrBody rest' with
      | none => none
      | some (body, rem) => some (d :: body, rem)
  | c :: rest =>
    match parseStrBody rest with
    | none => none
    | some (body, rem) => some (c :: body, rem)

/-- Parse a run of decimal digits, returning its value and the rest. -/
def parseDigits : List Char → Nat → Nat × List Char
  | [], acc => (acc, [])
  | c :: cs, acc =>
    if c.isDigit then parseDigits cs (10 * acc + (c.toNat - 48))
    else (acc, c :: cs)

/-- Does the input start with at least one decimal digit? -/
def startsWithDigit : List Char → Bool
  | [] => false
  | c :: _ => c.isDigit

mutual

/-- Model of the recursive-descent core of Python's `json.loads`
(restricted to the integer/ASCII fragment the client exchanges).
Parses one JSON value, returning it and the unconsumed input. `fuel`
only bounds recursion depth; `Json.loads` supplies enough of it that the
model agrees with `json.loads` on every string this development uses. -/
def parseVal : Nat → List Char → Option (Json × List Char)
  | 0, _ => none
  | fuel + 1, l =>
    match skipWs l with
    | [] => none
    | c :: rest =>
      if c = 'n' then
        match rest with
        | 'u' :: 'l' :: 'l' :: rem => some (.null, rem)
        | _ => none
      else if c = 't' then
        match rest with
        | 'r' :: 'u' :: 'e' :: rem => some (.bool true, rem)
        | _ => none
      else if c = 'f' then
        match rest with
        | 'a' :: 'l' :: 's' :: 'e' :: rem => some (.bool false, rem)
        | _ => none
      else if c = '"' then
        match parseStrBody rest with
        | none => none
        | some (body, rem) => some (.str (String.mk body), rem)
      else if c = '-' then
        if startsWithDigit rest then
          let (n, rem) := parseDigits rest 0
          some (.num (-(n : Int)), rem)
        else none
      else if c.isDigit then
        let (n, rem) := parseDigits (c :: rest) 0
        some (.num (n : Int), rem)
      else if c = '[' then
        match skipWs rest with
        | ']' :: rem => some (.arr [], rem)
        | _ => parseArrItems fuel rest []
      else if c = lbrace then
        match skipWs rest with
        | r :: rem => if r = rbrace then some (.obj [], rem) else parseObjItems fuel rest []
        | [] => none
      else none

/-- The element list of a non-empty JSON array (after `[` or a `,`). -/
def parseArrItems : Nat → List Char → List Json → Option (Json × List Char)
  | 0, _, _ => none
  | fuel + 1, l, acc =>
    match parseVal fuel l with
    | none => none
    | some (v, rem) =>
      match skipWs rem with
      | ',' :: rem' => parseArrItems fuel rem' (acc ++ [v])
      | ']' :: rem' => some (.arr (acc ++ [v]), rem')
      | _ => none

/-- The member list of a non-empty JSON object (after the brace or a `,`). -/
def parseObjItems : Nat → List Char → List (String × Json) → Option (Json × List Char)
  | 0, _, _ => none
  | fuel + 1, l, acc =>
    match skipWs l with
    | '"' :: rest =>
      match parseStrBody rest with
      | none => none
      | some (key, rem) =>
        match skipWs rem with
        | ':' :: rem' =>
          match parseVal fuel rem' with
          | none => none
          | some (v, rem2) =>
            match skipWs rem2 with
            | ',' :: rem3 => parseObjItems fuel rem3 (acc ++ [(String.mk key, v)])
            | r :: rem3 =>
              if r = rbrace then some (.obj (acc ++ [(String.mk key, v)]), rem3) else none
            | [] => none
        | _ => none
    | _ => none

end

/-- Model of Python's `json.loads` on a character list: parse one value
and require the remainder to be whitespace only (Python raises
`JSONDecodeError` on trailing data), returning `none` on any failure. -/
def Json.loadsChars (l : List Char) : Option Json :=
  match parseVal (l.length + 1) l with
  | none => none
  | some (j, rem) => if skipWs rem = [] then some j else none

/-- Model of Python's `json.loads` on a string. -/
def Json.loads (s : String) : Option Json :=
  Json.loadsChars s.data

/-- `n` spaces (the indentation unit of `json.dumps(..., indent=2)`). -/
def sp (n : Nat) : String := String.mk (List.replicate n ' ')

/-- One character of a JSON string literal as Python serializes it
(the basic escapes; the client's data is plain ASCII text). -/
def quoteChar (c : Char) : String :=
  if c = '"' then "\\\"" else if c = '\\' then "\\\\"
  else if c = '\n' then "\\n" else if c = '\t' then "\\t"
  else if c = '\r' then "\\r" else String.singleton c

/-- A JSON string literal as Python serializes it. -/
def quoteStr (s : String) : String :=
  "\"" ++ String.join (s.data.map quoteChar) ++ "\""

mutual

/-- Model of Python's `json.dumps(value, indent=2)` at indentation
level `lvl`: objects and arrays open their bracket, put each child on
its own line indented two more spaces, and close the bracket at the
parent's indentation, exactly as Python renders them. -/
def dumpsV : Json → Nat → String
  | .null, _ => "null"
  | .bool b, _ => if b then "true" else "false"
  | .num n, _ => toString n
  | .str s, _ => quoteStr s
  | .arr [], _ => "[]"
  | .arr (x :: xs), lvl => "[\n" ++ dumpsItems (x :: xs) (lvl + 1) ++ "\n" ++ sp (2 * lvl) ++ "]"
  | .obj [], _ => "\x7b\x7d"
  | .obj (p :: ps), lvl => "\x7b\n" ++ dumpsMembers (p :: ps) (lvl + 1) ++ "\n" ++ sp (2 * lvl) ++ "\x7d"

/-- The comma-and-newline separated element lines of an array. -/
def dumpsItems : List Json → Nat → String
  | [], _ => ""
  | [x], lvl => sp (2 * lvl) ++ dumpsV x lvl
  | x :: y :: xs, lvl => sp (2 * lvl) ++ dumpsV x lvl ++ ",\n" ++ dumpsItems (y :: xs) lvl

/-- The comma-and-newline separated member lines of an object. -/
def dumpsMembers : List (String × Json) → Nat → String
  | [], _ => ""
  | [(k, v)], lvl => sp (2 * lvl) ++ quoteStr k ++ ": " ++ dumpsV v lvl
  | (k, v) :: q :: qs, lvl =>
    sp (2 * lvl) ++ quoteStr k ++ ": " ++ dumpsV v lvl ++ ",\n" ++ dumpsMembers (q :: qs) lvl

end

/-- Model of Python's `json.dumps(value, indent=2)`. -/
def Json.dumps2 (j : Json) : String := dumpsV j 0

/-- Python truthiness (`if response:` / `if not response:`) on a JSON
value: empty strings, empty containers, zero, `false` and `null` are
falsy, everything else truthy. -/
def pyTruthy : Json → Bool
  | .null => false
  | .bool b => b
  | .num n => n != 0
  | .str s => !s.isEmpty
  | .arr xs => !xs.isEmpty
  | .obj kvs => !kvs.isEmpty

/-- The bridge's terminal-response heuristic, from
`client.py:156`/`client.py:194`:
`isinstance(json_data, dict) and ('library' in json_data or 'result' in json_data)`. -/
def isTerminal : Json → Bool
  | .obj kvs => kvs.any (fun kv => kv.1 = "library" || kv.1 = "result")
  | _ => false

/-- First binding of a key in an object's member list (Python dicts
hold each key once, so this is Python's `d[k]` / `d.get(k)` hit case). -/
def lookupKV (k : String) : List (String × Json) → Option Json
  | [] => none
  | (k', v) :: rest => if k' = k then some v else lookupKV k rest

/-- Python's `d.get(key, default)` on a JSON object's member list. -/
def getKV (kvs : List (String × Json)) (k : String) (d : Json) : Json :=
  (lookupKV k kvs).getD d

/-- Why the bridge's read loop stopped. The Python code distinguishes
these exits only by which statement broke the loop; the model names
them so that claims about the cause of an exit can be stated. -/
inductive ExitReason where
  | terminal : ExitReason
  | eofExit : ExitReason
  | procExit : ExitReason
  | deadline : ExitReason
  | blocked : ExitReason
deriving DecidableEq, Repr

/-- The read loop's accumulated decoded output and the reason it stopped. -/
structure LoopResult where
  output : List Json
  reason : ExitReason

/-- The readline-based read loop of `communicate_with_mcp_server`
(`client.py:183-204`, the branch taken when `unittest` is loaded).
`iters` scripts the child: each entry is the raw string
`process.stdout.readline()` returns (`""` = EOF) together with whether
`process.poll()` reports the process exited at that iteration's poll
check; an exhausted script means `readline` blocks forever. `fuel` is
the number of iterations the wall-clock deadline still allows. -/
def readLoopT : Nat → List (String × Bool) → List Json → LoopResult
  | 0, _, acc => ⟨acc, .deadline⟩
  | _ + 1, [], acc => ⟨acc, .blocked⟩
  | fuel + 1, (line, exited) :: iters, acc =>
    if line.isEmpty then ⟨acc, .eofExit⟩
    else
      let t := pyStrip line.data
      if t.isEmpty then
        if exited then ⟨acc, .procExit⟩ else readLoopT fuel iters acc
      else
        match Json.loadsChars t with
        | some j =>
          let acc' := acc ++ [j]
          if isTerminal j then ⟨acc', .terminal⟩
          else if exited then ⟨acc', .procExit⟩
          else readLoopT fuel iters acc'
        | none => readLoopT fuel iters acc

/-- Split a buffer at its first newline: `breakNl l = some (pre, rest)`
when `l = pre ++ '\n' :: rest` with `pre` newline-free — the model of
`buffer.find('\n')` plus the two slices `buffer[:obj_end]` and
`buffer[obj_end+1:]` of `client.py:143-148`. -/
def breakNl : List Char → Option (List Char × List Char)
  | [] => none
  | c :: cs =>
    if c = '\n' then some ([], cs)
    else
      match breakNl cs with
      | none => none
      | some (pre, rest) => some (c :: pre, rest)

/-- The inner line-extraction loop of the select-based branch
(`client.py:140-163`). Faithful to the source, including its handling
of a line that fails JSON decoding: the `except` clause at
`client.py:162` slices the buffer by `obj_end+1` a second time even
though line 148 already advanced it, and the `break` on a terminal
object at line 158 leaves only this inner loop. `fuel` is an upper
bound on iterations; callers pass `buffer.length + 1`, which is enough
because every iteration shortens the buffer. Returns the remaining
buffer and the accumulated output. -/
def extractLoop : Nat → List Char → List Json → List Char × List Json
  | 0, buffer, acc => (buffer, acc)
  | fuel + 1, buffer, acc =>
    match breakNl buffer with
    | none => (buffer, acc)
    | some (pre, rest) =>
      let jsonStr := pyStrip pre
      if jsonStr.isEmpty then extractLoop fuel rest acc
      else
        match Json.loadsChars jsonStr with
        | some j =>
          let acc' := acc ++ [j]
          if isTerminal j then (rest, acc')
          else extractLoop fuel rest acc'
        | none => extractLoop fuel (rest.drop (pre.length + 1)) acc

/-- Python `str.splitlines()` restricted to `'\n'` separators, with a
fuel bound on the number of produced lines (each iteration removes at
least the separator, so the seed in `splitLinesCh` is always enough). -/
def splitLinesF : Nat → List Char → List (List Char)
  | 0, l => if l.isEmpty then [] else [l]
  | fuel + 1, l =>
    match breakNl l with
    | none => if l.isEmpty then [] else [l]
    | some (pre, rest) => pre :: splitLinesF fuel rest

/-- Python `str.splitlines()` restricted to `'\n'` separators. -/
def splitLinesCh (l : List Char) : List (List Char) :=
  splitLinesF (l.length + 1) l

/-- The final drain of the select-based branch when `process.poll()`
reports the child exited (`client.py:168-179`): read whatever is left
on stdout (`remaining`); only if that read returned anything, append it
to the buffer and decode every line of the combined buffer, silently
skipping blanks and undecodable lines. Faithful detail: when
`remaining` is empty the leftover buffer is not parsed at all, because
the whole drain sits under `if remaining:`. -/
def drainJson (buffer : List Char) (remaining : String) (acc : List Json) : List Json :=
  if remaining.isEmpty then acc
  else
    acc ++ (splitLinesCh (buffer ++ remaining.data)).filterMap (fun line =>
      let t := pyStrip line
      if t.isEmpty then none else Json.loadsChars t)

/-- One iteration of the select-based polling loop, as scripted by the
child model: `chunk = none` means `select` reported no data within its
0.1s poll window, `chunk = some ""` means `process.stdout.read(4096)`
returned EOF, `chunk = some s` means it returned the data `s`;
`exited` is what `process.poll()` reports at this iteration's check. -/
structure IterS where
  chunk : Option String
  exited : Bool

/-- The select-based polling read loop of `communicate_with_mcp_server`
(`client.py:129-180`, the branch taken outside unittest). `fuel` is
the number of iterations the wall-clock deadline still allows,
`remaining` is what the final `process.stdout.read()` drain would
return after the child exits. An exhausted script behaves as a child
that never writes again: `select` keeps timing out until the deadline.
Faithful detail: a terminal object found by `extractLoop` breaks only
that inner loop (`client.py:158`), so this outer loop keeps polling. -/
def selectLoop : Nat → List IterS → String → List Char → List Json → LoopResult
  | 0, _, _, _, acc => ⟨acc, .deadline⟩
  | fuel + 1, [], remaining, buffer, acc => selectLoop fuel [] remaining buffer acc
  | fuel + 1, i :: rest, remaining, buffer, acc =>
    match i.chunk with
    | some c =>
      if c.isEmpty then ⟨acc, .eofExit⟩
      else
        let buf1 := buffer ++ c.data
        let res := extractLoop (buf1.length + 1) buf1 acc
        if i.exited then ⟨drainJson res.1 remaining res.2, .procExit⟩
        else selectLoop fuel rest remaining res.1 res.2
    | none =>
      if i.exited then ⟨drainJson buffer remaining acc, .procExit⟩
      else selectLoop fuel rest remaining buffer acc

/-- The startup banner `communicate_with_mcp_server` watches for on the
child's stderr (`client.py:91`). -/
def bannerStr : String := "Context7 Documentation MCP Server running on stdio"

/-- Is `n` a leading run of `h`? (character-list helper). -/
def leadingRun : List Char → List Char → Bool
  | [], _ => true
  | _ :: _, [] => false
  | a :: as, b :: bs => a = b && leadingRun as bs

/-- Python's substring test `needle in haystack` on character lists. -/
def containsRun (n : List Char) : List Char → Bool
  | [] => n.isEmpty
  | b :: bs => leadingRun n (b :: bs) || containsRun n bs

/-- The startup-banner wait of `communicate_with_mcp_server`
(`client.py:83-98`): up to 5 seconds, repeatedly `readline` the child's
stderr and stop as soon as a line contains the banner.
`process.stderr.readline()` is a blocking read: with no line available
and the stream not at EOF it never returns, which the model reports as
`none`. `some true` is the banner found, `some false` the 5 seconds
elapsing without it (the code proceeds in both cases). `fuel` is the
number of iterations the 5-second bound allows (≈ 50 at the 0.1s
sleep); `eof` says the child closed its stderr after `stderrLines`. -/
def bannerWait : Nat → List String → Bool → Option Bool
  | 0, _, _ => some false
  | fuel + 1, [], eof => if eof then bannerWait fuel [] eof else none
  | fuel + 1, line :: rest, eof =>
    if containsRun bannerStr.data line.data then some true
    else bannerWait fuel rest eof

/-- The child-process behavior shared by both read-loop branches:
whether `subprocess.Popen` itself fails (`client.py:73`), what the
child writes on stderr before the banner wait gives up, whether stderr
ever reaches EOF, and whether writing the request to the child's stdin
raises (`client.py:103-105`, e.g. `BrokenPipeError` when the child
closed its stdin while still running). -/
structure ChildPre where
  spawnFails : Bool
  stderrLines : List String
  stderrEof : Bool
  writeRaises : Bool

/-- The observable outcome of one call to
`communicate_with_mcp_server`: the call returns a value (with `reaped`
recording whether the terminate/wait/kill sequence of
`client.py:227-234` ran before the return), or an exception escapes to
the caller, or the call never returns because a blocking read never
completes. -/
inductive BridgeOutcome where
  | returns (response : Option Json) (reaped : Bool) : BridgeOutcome
  | raises : BridgeOutcome
  | diverges : BridgeOutcome

/-- The body of `communicate_with_mcp_server` around a read loop's
result (`client.py:68-257`): spawn, banner wait, request write, the
read loop, then unconditionally-in-line teardown (`client.py:227-234`)
and `return output[-1] if output else None` (`client.py:245-253`); the
enclosing `try`/`except Exception` (`client.py:70`, `255-257`) turns
any exception raised before the read loop into a plain `return None`
with no teardown, and no exception ever escapes. -/
def bridgeRun (pre : ChildPre) (loop : LoopResult) : BridgeOutcome :=
  if pre.spawnFails then .returns none false
  else
    match bannerWait 50 pre.stderrLines pre.stderrEof with
    | none => .diverges
    | some _ =>
      if pre.writeRaises then .returns none false
      else
        match loop.reason with
        | .blocked => .diverges
        | _ => .returns loop.output.getLast? true

/-- A scripted child for the readline-based branch. -/
structure ChildT where
  pre : ChildPre
  fuel : Nat
  iters : List (String × Bool)

/-- `communicate_with_mcp_server` with `unittest` loaded
(readline-based read loop). -/
def communicateTest (c : ChildT) : BridgeOutcome :=
  bridgeRun c.pre (readLoopT c.fuel c.iters [])

/-- A scripted child for the select-based branch. -/
structure ChildS where
  pre : ChildPre
  fuel : Nat
  iters : List IterS
  remaining : String

/-- `communicate_with_mcp_server` outside unittest (select-based read
loop). -/
def communicateSelect (c : ChildS) : BridgeOutcome :=
  bridgeRun c.pre (selectLoop c.fuel c.iters c.remaining [] [])

/-- A well-behaved child preamble: spawn succeeds, no stderr output but
the stream is closed (EOF), request write succeeds. -/
def okPre : ChildPre := ⟨false, [], true, false⟩

/-- What one call to `resolve_library_id` does, as observed by
`fetch_documentation` (`client.py:313`): it returns a value (`None` or
the `result` field of the terminal response, an arbitrary JSON value),
or raises. -/
inductive ResolveOutcome where
  | ret (v : Option Json) : ResolveOutcome
  | raised : ResolveOutcome

/-- The library-id resolution step of `fetch_documentation`
(`client.py:310-320`): resolve only when the input contains no `/`;
keep the resolved value only when it is truthy; on `None`, a falsy
value, or an exception, keep the original input. The first component
records whether `resolve_library_id` was invoked. -/
def resolveStep (libraryId : String) (resolver : ResolveOutcome) : Bool × Json :=
  if libraryId.data.contains '/' then (false, .str libraryId)
  else
    match resolver with
    | .raised => (true, .str libraryId)
    | .ret none => (true, .str libraryId)
    | .ret (some v) => (true, if pyTruthy v then v else .str libraryId)

/-- The `request_data` dictionary sent to the MCP server:
`{"tool": ..., "args": {...}}`. -/
structure ToolRequest where
  tool : String
  args : List (String × Json)

/-- The `get-library-docs` request `fetch_documentation` constructs
(`client.py:322-330`), with its token floor `max(tokens, 5000)`. -/
def getDocsRequest (libraryId : Json) (topic : String) (tokens : Int) : ToolRequest :=
  ⟨"get-library-docs",
   [("context7CompatibleLibraryID", libraryId),
    ("topic", .str topic),
    ("tokens", .num (max tokens 5000))]⟩

/-- The `tool_args` that `fetch_documentation_sdk` builds
(`mcp_sdk_client.py:168-177`): strip a trailing `.js` from the library
id, and apply the same `max(tokens, 5000)` floor. -/
def sdkDocsArgs (libraryId : String) (topic : String) (tokens : Int) : List (String × Json) :=
  let lid :=
    if leadingRun ".js".data.reverse libraryId.data.reverse
    then String.mk (libraryId.data.take (libraryId.data.length - 3))
    else libraryId
  [("context7CompatibleLibraryID", .str lid),
   ("topic", .str topic),
   ("tokens", .num (max tokens 5000))]

/-- The output envelope `fetch_documentation` builds from a terminal
response that is a dict (`client.py:342-349`): `content` is the whole
response re-serialized with `json.dumps(response, indent=2)`, the other
four fields come from `response.get` with their defaults. -/
def aiderOutput (kvs : List (String × Json)) : Json :=
  .obj [("content", .str (Json.dumps2 (.obj kvs))),
        ("library", getKV kvs "library" (.str "")),
        ("snippets", getKV kvs "snippets" (.arr [])),
        ("totalTokens", getKV kvs "totalTokens" (.num 0)),
        ("lastUpdated", getKV kvs "lastUpdated" (.str ""))]

/-- Normalization of the raw response by `fetch_documentation`: on a
dict, the `aiderOutput` envelope; on any other value, `response.get`
raises `AttributeError`, which the `except` at `client.py:355-357`
turns into `None`. -/
def normalizeResponse : Json → Option Json
  | .obj kvs => some (aiderOutput kvs)
  | _ => none

/-- `fetch_documentation` (`client.py:297-357`), with the external
collaborators passed in: `resolver` is what its `resolve_library_id`
call would do, `bridge` is what `communicate_with_mcp_server` returns
for a given request. Produces the request it sends together with its
return value: `None` when the bridge returned `None` or a falsy
response (`client.py:338-340`) or normalization raised, otherwise the
normalized envelope. -/
def fetchDocumentationWithReq (resolver : ResolveOutcome)
    (bridge : ToolRequest → Option Json)
    (libraryId topic : String) (tokens : Int) : ToolRequest × Option Json :=
  let req := getDocsRequest (resolveStep libraryId resolver).2 topic tokens
  let result :=
    match bridge req with
    | none => none
    | some resp => if pyTruthy resp then normalizeResponse resp else none
  (req, result)

/-- The return value of `fetch_documentation`. -/
def fetchDocumentation (resolver : ResolveOutcome)
    (bridge : ToolRequest → Option Json)
    (libraryId topic : String) (tokens : Int) : Option Json :=
  (fetchDocumentationWithReq resolver bridge libraryId topic tokens).2

/-- Key list of a JSON object (empty for non-objects). -/
def Json.keys : Json → List String
  | .obj kvs => kvs.map Prod.fst
  | _ => []

/-- Lookup of a key in a JSON object (none for non-objects). -/
def Json.lookupKey : Json → String → Option Json
  | .obj kvs, k => lookupKV k kvs
  | _, _ => none

example : Json.loads "null" = some .null := rfl
example : Json.loads "not json" = none := rfl
example : Json.loads "\x7b\"result\":\"x\"\x7d" = some (.obj [("result", .str "x")]) := rfl
example : Json.loads ":\"x\"\x7d" = none := rfl
example : Json.loads "[1, -2]" = some (.arr [.num 1, .num (-2)]) := rfl
example : Json.dumps2 (.obj [("library", .str "l")]) = "\x7b\n  \"library\": \"l\"\n\x7d" := rfl
example : isTerminal (.obj [("log", .num 1)]) = false := rfl
example : isTerminal (.obj [("result", .str "a")]) = true := rfl
example : (readLoopT 300 [("not json\n", false), ("\x7b\"result\":\"x\"\x7d\n", false)] []).output
    = [.obj [("result", .str "x")]] := rfl
example : (selectLoop 300 [⟨some "not json\n\x7b\"result\":\"x\"\x7d\n", false⟩, ⟨some "", false⟩] "" [] []).output
    = [] := rfl
example : (selectLoop 300 [⟨some "\x7b\"result\":\"a\"\x7d\n", false⟩, ⟨some "\x7b\"result\":\"b\"\x7d\n", true⟩] "" [] []).output
    = [.obj [("result", .str "a")], .obj [("result", .str "b")]] := rfl
example : bannerWait 50 [] false = none := rfl
example : bannerWait 50 [] true = some false := rfl
example : bannerWait 50 ["Context7 Documentation MCP Server running on stdio\n"] false = some true := rfl
example : (resolveStep "org/lib" (.ret (some (.str "other/lib")))).1 = false := rfl
example : (resolveStep "lib" (.ret (some (.str "org/lib")))).2 = .str "org/lib" := rfl
example : (resolveStep "lib" (.ret (some (.str "")))).2 = .str "lib" := rfl
example : sdkDocsArgs "react.js" "" 100
    = [("context7CompatibleLibraryID", .str "react"), ("topic", .str ""), ("tokens", .num 5000)] := rfl

/-- The select-based polling loop never blocks: `select` bounds every
wait by its 0.1s poll window, so the loop always stops by terminal
response, EOF, process exit, or the deadline. -/
theorem selectLoop_not_blocked (fuel : Nat) :
    ∀ (iters : List IterS) (remaining : String) (buffer : List Char) (acc : List Json),
      (selectLoop fuel iters remaining buffer acc).reason ≠ ExitReason.blocked := by
  induction fuel with
  | zero =>
    intro iters remaining buffer acc h
    simp [selectLoop] at h
  | succ n ih =>
    intro iters remaining buffer acc h
    rcases iters with _ | ⟨i, rest⟩
    · rw [selectLoop] at h
      exact ih [] remaining buffer acc h
    · rw [selectLoop] at h
      rcases hc : i.chunk with _ | c <;> rw [hc] at h
      · by_cases he : i.exited
        · simp [he] at h
        · simp only [he, if_false, Bool.false_eq_true] at h
          exact ih rest remaining buffer acc h
      · by_cases hce : c.isEmpty
        · simp [hce] at h
        · simp only [hce, if_false, Bool.false_eq_true] at h
          by_cases he : i.exited
          · simp [he] at h
          · simp only [he, if_false, Bool.false_eq_true] at h
            exact ih rest remaining _ _ h

/-- The `except Exception` handler at `client.py:255-257` converts every
failure inside `communicate_with_mcp_server` into `return None`, so no
exception escapes the bridge on any modelled path. -/
theorem bridgeRun_ne_raises (pre : ChildPre) (loop : LoopResult) :
    bridgeRun pre loop ≠ .raises := by
  unfold bridgeRun
  by_cases hs : pre.spawnFails <;> simp [hs]
  cases hb : bannerWait 50 pre.stderrLines pre.stderrEof <;> simp
  by_cases hw : pre.writeRaises <;> simp [hw]
  cases hr : loop.reason <;> simp

/-- C1: the claim that every exit path of the bridge terminates the
child before returning is FALSE. A child that closes its stdin while
still running makes the request write at `client.py:103` raise
`BrokenPipeError`; the outer `except Exception` at `client.py:255`
returns `None` without ever executing the terminate/wait/kill sequence
of `client.py:227-234` (`reaped = false`), in both read-loop branches —
the still-running child is left alive. -/
theorem write_error_skips_child_teardown :
    communicateTest ⟨⟨false, [], true, true⟩, 300, []⟩ = .returns none false ∧
    communicateSelect ⟨⟨false, [], true, true⟩, 300, [], ""⟩ = .returns none false :=
  ⟨rfl, rfl⟩

/-- C2: the claim that the reader stops reading entirely at the first
terminal line is FALSE in the select-based branch: the `break` at
`client.py:158` leaves only the inner line-extraction loop, so after
the terminal `{"result":"a"}` the outer polling loop keeps reading; a
later `{"result":"b"}` is decoded, appended, and — being the last
element — becomes the selected response. -/
theorem select_branch_reads_past_first_terminal :
    (selectLoop 300
        [⟨some "\x7b\"result\":\"a\"\x7d\n", false⟩, ⟨some "\x7b\"result\":\"b\"\x7d\n", true⟩]
        "" [] []).output
      = [.obj [("result", .str "a")], .obj [("result", .str "b")]] ∧
    communicateSelect ⟨okPre, 300,
        [⟨some "\x7b\"result\":\"a\"\x7d\n", false⟩, ⟨some "\x7b\"result\":\"b\"\x7d\n", true⟩], ""⟩
      = .returns (some (.obj [("result", .str "b")])) true :=
  ⟨rfl, rfl⟩

/-- C3 counterexample: the claim that a deadline elapse (`Timeout`) and
an empty-output exit (`NoResponse`) are distinguishable outcomes is
FALSE: one run stops because the deadline elapsed, the other because
the child reached EOF with no output, and both bridge invocations
return the identical value (`None`, teardown run) — the code has no
tagged outcome, only `output[-1]` or `None` (`client.py:245-253`). -/
theorem deadline_and_no_output_return_equal :
    (selectLoop 3 [] "" [] []).reason = .deadline ∧
    (selectLoop 300 [⟨some "", false⟩] "" [] []).reason = .eofExit ∧
    communicateSelect ⟨okPre, 3, [], ""⟩ = .returns none true ∧
    communicateSelect ⟨okPre, 300, [⟨some "", false⟩], ""⟩ = .returns none true :=
  ⟨rfl, rfl, rfl, rfl⟩

/-- C3 (amended): on the non-exceptional select-branch path the bridge
produces exactly one result: the last element of the accumulated
decoded-output list when that list is non-empty, `None` otherwise —
with no distinction between the deadline and no-output causes. -/
theorem bridge_returns_last_output_or_none :
    ∀ (c : ChildS),
      c.pre.spawnFails = false →
      c.pre.writeRaises = false →
      bannerWait 50 c.pre.stderrLines c.pre.stderrEof ≠ none →
      communicateSelect c
        = .returns (selectLoop c.fuel c.iters c.remaining [] []).output.getLast? true := by
  intro c hs hw hb
  unfold communicateSelect bridgeRun
  simp only [hs, Bool.false_eq_true, if_false]
  cases hbw : bannerWait 50 c.pre.stderrLines c.pre.stderrEof with
  | none => exact absurd hbw hb
  | some b =>
    simp only [hw, Bool.false_eq_true, if_false]
    cases hr : (selectLoop c.fuel c.iters c.remaining [] []).reason with
    | blocked => exact absurd hr (selectLoop_not_blocked _ _ _ _ _)
    | terminal => rfl
    | eofExit => rfl
    | procExit => rfl
    | deadline => rfl

/-- Witness for the amended C3 theorem at a concrete silent child. -/
theorem bridge_returns_last_output_or_none_witness :
    (⟨okPre, 3, [], ""⟩ : ChildS).pre.spawnFails = false ∧
    (⟨okPre, 3, [], ""⟩ : ChildS).pre.writeRaises = false ∧
    bannerWait 50 okPre.stderrLines okPre.stderrEof ≠ none ∧
    communicateSelect ⟨okPre, 3, [], ""⟩
      = .returns (selectLoop 3 [] "" [] []).output.getLast? true :=
  ⟨rfl, rfl, by decide,
    bridge_returns_last_output_or_none ⟨okPre, 3, [], ""⟩ rfl rfl (by decide)⟩

/-- C4: the claim that a malformed line never affects the lines after
it is FALSE in the select-based branch: for the chunk
`"not json\n{\"result\":\"x\"}\n"` the `except` clause at
`client.py:162` advances the buffer by `obj_end+1` a second time,
destroying the following terminal line, and the bridge returns `None`
instead of the claimed success with `"x"`. The readline-based branch
(`client.py:197-199`) does satisfy the claim on the same two lines. -/
theorem malformed_line_mangles_next_line :
    communicateSelect ⟨okPre, 300,
        [⟨some "not json\n\x7b\"result\":\"x\"\x7d\n", false⟩, ⟨some "", false⟩], ""⟩
      = .returns none true ∧
    communicateTest ⟨okPre, 300, [("not json\n", false), ("\x7b\"result\":\"x\"\x7d\n", false)]⟩
      = .returns (some (.obj [("result", .str "x")])) true :=
  ⟨rfl, rfl⟩

/-- C5: the claim that every read step is bounded by the deadline plus
one poll interval is FALSE: `process.stderr.readline()` in the
startup-banner wait (`client.py:89`) is a blocking read, so a child
that never writes to stderr and never exits blocks the bridge forever
before the deadline check is ever reached, in both branches; and even
with stderr at EOF, the readline-based output loop (`client.py:184`)
blocks the same way on a child that never writes stdout. -/
theorem silent_child_blocks_banner_wait :
    communicateSelect ⟨⟨false, [], false, false⟩, 10, [], ""⟩ = .diverges ∧
    communicateTest ⟨⟨false, [], false, false⟩, 10, []⟩ = .diverges ∧
    communicateTest ⟨okPre, 10, []⟩ = .diverges :=
  ⟨rfl, rfl, rfl⟩

/-- C6 counterexample: the claim that a spawn failure is surfaced to
the bridge's caller as a hard error is FALSE: `subprocess.Popen` sits
inside the `try` of `client.py:70`, so `FileNotFoundError` is caught by
the `except Exception` at `client.py:255` and the call returns `None`
normally (and without teardown), in both branches. -/
theorem spawn_failure_absorbed_to_none :
    communicateTest ⟨⟨true, [], true, false⟩, 300, []⟩ = .returns none false ∧
    communicateTest ⟨⟨true, [], true, false⟩, 300, []⟩ ≠ .raises ∧
    communicateSelect ⟨⟨true, [], true, false⟩, 300, [], ""⟩ = .returns none false :=
  ⟨rfl, bridgeRun_ne_raises _ _, rfl⟩

/-- C6 (amended): no exception — spawn, write, or transport — ever
propagates out of `communicate_with_mcp_server`; a spawn failure, like
every other failure inside the bridge, is absorbed into a plain `None`
return. -/
theorem bridge_never_raises :
    ∀ (c : ChildT) (s : ChildS),
      communicateTest c ≠ .raises ∧
      communicateSelect s ≠ .raises ∧
      (c.pre.spawnFails = true → communicateTest c = .returns none false) ∧
      (s.pre.spawnFails = true → communicateSelect s = .returns none false) := by
  intro c s
  refine ⟨bridgeRun_ne_raises _ _, bridgeRun_ne_raises _ _, ?_, ?_⟩
  · intro h
    simp [communicateTest, bridgeRun, h]
  · intro h
    simp [communicateSelect, bridgeRun, h]

/-- Witness for the amended C6 theorem at a concrete failing spawn. -/
theorem bridge_never_raises_witness :
    communicateTest ⟨⟨true, ["noise"], false, false⟩, 7, []⟩ = .returns none false :=
  (bridge_never_raises ⟨⟨true, ["noise"], false, false⟩, 7, []⟩
    ⟨⟨true, [], true, false⟩, 7, [], ""⟩).2.2.1 rfl

/-- C7: the `get-library-docs` request built by `fetch_documentation`
(and the SDK variant's `tool_args`) carries
`tokens = max(requested, 5000)` — a budget of 100 is raised to 5000, a
budget of 9000 passes through, and the requested count is never
lowered. -/
theorem docs_request_enforces_token_floor :
    ∀ (r : ResolveOutcome) (b : ToolRequest → Option Json) (lid topic : String) (t : Int),
      lookupKV "tokens" (fetchDocumentationWithReq r b lid topic t).1.args
        = some (.num (max t 5000)) ∧
      lookupKV "tokens" (sdkDocsArgs lid topic t) = some (.num (max t 5000)) ∧
      lookupKV "tokens" (fetchDocumentationWithReq r b lid topic 100).1.args
        = some (.num 5000) ∧
      lookupKV "tokens" (fetchDocumentationWithReq r b lid topic 9000).1.args
        = some (.num 9000) := by
  intro r b lid topic t
  exact ⟨rfl, rfl, rfl, rfl⟩

/-- C8: `fetch_documentation` invokes `resolve_library_id` exactly when
the input contains no `/`, and whenever resolution fails (returns
`None` or raises) the request is built with the original input string;
the request's library id is always the resolution step's outcome. -/
theorem resolution_iff_no_separator :
    ∀ (lid : String) (r : ResolveOutcome),
      ((resolveStep lid r).1 = !lid.data.contains '/') ∧
      ((r = .ret none ∨ r = .raised) → (resolveStep lid r).2 = .str lid) ∧
      (∀ (b : ToolRequest → Option Json) (topic : String) (t : Int),
        lookupKV "context7CompatibleLibraryID" (fetchDocumentationWithReq r b lid topic t).1.args
          = some (resolveStep lid r).2) := by
  intro lid r
  refine ⟨?_, ?_, ?_⟩
  · unfold resolveStep
    cases h : lid.data.contains '/' <;> simp <;>
      rcases r with (_ | j) | _ <;> simp
  · intro h
    rcases h with h | h <;> subst h <;> unfold resolveStep <;>
      cases hc : lid.data.contains '/' <;> simp
  · intro b topic t
    rfl

/-- Witness for the C8 theorem at concrete inputs: a bare name invokes
resolution and falls back to itself when the resolver returns `None`;
a canonical `org/lib` id skips resolution. -/
theorem resolution_iff_no_separator_witness :
    (resolveStep "lib" (.ret none)).2 = .str "lib" ∧
    (resolveStep "lib" (.ret none)).1 = true ∧
    (resolveStep "org/lib" (.ret none)).1 = false :=
  ⟨(resolution_iff_no_separator "lib" (.ret none)).2.1 (Or.inl rfl),
   ((resolution_iff_no_separator "lib" (.ret none)).1).trans rfl,
   ((resolution_iff_no_separator "org/lib" (.ret none)).1).trans rfl⟩

/-- C9: every bundle `fetch_documentation` returns for an accepted
(truthy dict) terminal response contains exactly the five fields
`content`, `library`, `snippets`, `totalTokens`, `lastUpdated`, and any
field absent from the raw response is filled with its default: `""`,
`[]`, `0`, `""` respectively. -/
theorem normalized_bundle_has_all_fields :
    ∀ (r : ResolveOutcome) (lid topic : String) (t : Int) (kvs : List (String × Json)),
      pyTruthy (.obj kvs) = true →
      fetchDocumentation r (fun _ => some (.obj kvs)) lid topic t = some (aiderOutput kvs) ∧
      Json.keys (aiderOutput kvs)
        = ["content", "library", "snippets", "totalTokens", "lastUpdated"] ∧
      (lookupKV "library" kvs = none →
        Json.lookupKey (aiderOutput kvs) "library" = some (.str "")) ∧
      (lookupKV "snippets" kvs = none →
        Json.lookupKey (aiderOutput kvs) "snippets" = some (.arr [])) ∧
      (lookupKV "totalTokens" kvs = none →
        Json.lookupKey (aiderOutput kvs) "totalTokens" = some (.num 0)) ∧
      (lookupKV "lastUpdated" kvs = none →
        Json.lookupKey (aiderOutput kvs) "lastUpdated" = some (.str "")) := by
  intro r lid topic t kvs h
  refine ⟨?_, rfl, ?_, ?_, ?_, ?_⟩
  · unfold fetchDocumentation fetchDocumentationWithReq
    simp [h, normalizeResponse]
  · intro hn
    have he : Json.lookupKey (aiderOutput kvs) "library"
        = some ((lookupKV "library" kvs).getD (.str "")) := rfl
    rw [he, hn]
    rfl
  · intro hn
    have he : Json.lookupKey (aiderOutput kvs) "snippets"
        = some ((lookupKV "snippets" kvs).getD (.arr [])) := rfl
    rw [he, hn]
    rfl
  · intro hn
    have he : Json.lookupKey (aiderOutput kvs) "totalTokens"
        = some ((lookupKV "totalTokens" kvs).getD (.num 0)) := rfl
    rw [he, hn]
    rfl
  · intro hn
    have he : Json.lookupKey (aiderOutput kvs) "lastUpdated"
        = some ((lookupKV "lastUpdated" kvs).getD (.str "")) := rfl
    rw [he, hn]
    rfl

/-- Witness for the C9 theorem: a terminal `{"result": "org/lib"}`
response, with all four optional fields absent, normalizes to the
envelope with every default filled in. -/
theorem normalized_bundle_has_all_fields_witness :
    fetchDocumentation (.ret none) (fun _ => some (.obj [("result", .str "org/lib")])) "lib" "" 100
      = some (aiderOutput [("result", .str "org/lib")]) ∧
    Json.lookupKey (aiderOutput [("result", .str "org/lib")]) "library" = some (.str "") ∧
    Json.lookupKey (aiderOutput [("result", .str "org/lib")]) "snippets" = some (.arr []) ∧
    Json.lookupKey (aiderOutput [("result", .str "org/lib")]) "totalTokens" = some (.num 0) ∧
    Json.lookupKey (aiderOutput [("result", .str "org/lib")]) "lastUpdated" = some (.str "") :=
  have h := normalized_bundle_has_all_fields (.ret none) "lib" "" 100 [("result", .str "org/lib")] rfl
  ⟨h.1, h.2.2.1 rfl, h.2.2.2.1 rfl, h.2.2.2.2.1 rfl, h.2.2.2.2.2 rfl⟩

/-- C10: the `content` field of every bundle `fetch_documentation`
returns is `json.dumps(response, indent=2)` of the entire raw terminal
response — not a field extracted from it — even when `library`,
`snippets`, `totalTokens` and `lastUpdated` are present; the second
conjunct pins down the 2-space-indented rendering on a response
carrying all four fields. -/
theorem content_serializes_entire_response :
    (∀ (r : ResolveOutcome) (lid topic : String) (t : Int) (kvs : List (String × Json)),
      pyTruthy (.obj kvs) = true →
      ∃ out, fetchDocumentation r (fun _ => some (.obj kvs)) lid topic t = some out ∧
        Json.lookupKey out "content" = some (.str (Json.dumps2 (.obj kvs)))) ∧
    Json.dumps2 (.obj [("library", .str "l"), ("snippets", .arr [.str "s1"]),
        ("totalTokens", .num 1200), ("lastUpdated", .str "2025-01-01")])
      = "\x7b\n  \"library\": \"l\",\n  \"snippets\": [\n    \"s1\"\n  ],\n  \"totalTokens\": 1200,\n  \"lastUpdated\": \"2025-01-01\"\n\x7d" := by
  refine ⟨?_, rfl⟩
  intro r lid topic t kvs h
  refine ⟨aiderOutput kvs, ?_, rfl⟩
  unfold fetchDocumentation fetchDocumentationWithReq
  simp [h, normalizeResponse]

/-- Witness for the C10 theorem at a concrete response that carries a
`library` field: `content` is still the serialization of the whole
object. -/
theorem content_serializes_entire_response_witness :
    ∃ out, fetchDocumentation (.ret none) (fun _ => some (.obj [("library", .str "l")]))
        "org/lib" "" 100 = some out ∧
      Json.lookupKey out "content" = some (.str (Json.dumps2 (.obj [("library", .str "l")]))) :=
  content_serializes_entire_response.1 (.ret none) "org/lib" "" 100 [("library", .str "l")] rfl
